import Mathlib

/-!
# Verification of the GeoNames URL builder (src/geonames/api_url.py)

This file shallowly embeds the Python class `APIUrl` of
`src/geonames/api_url.py` and proves properties of its endpoint methods.

Modelling conventions (matching the Python source):
* A Python value that may be `None` is an `Option`.
* Numeric parameters (documented as `int`/`float`) are embedded at `Int`
  instances; Python `str(i)` agrees with `toString (i : Int)` on integers.
* Python truthiness is made explicit: `None` and `""` and `0` and `False`
  are falsy, everything else is truthy.
* Parameters that Python accepts as `str or list` are embedded as
  `Option (List String)`; a bare string stands for its singleton list,
  which is exactly the normalisation the source performs
  (`if isinstance(x, str): x = [x]`).
* `date` parameters are embedded as the already rendered `"YYYY-MM-DD"`
  string (the source renders a `datetime.date` with `strftime` before use).
* A raised `AssertionError` / `TypeError` is an `Except.error`;
  apostrophes are stripped from the message texts.
* `urlencode(keys, encoding="utf-8")` is modelled byte for byte:
  `quote_plus` percent-encodes the UTF-8 bytes, keeps ASCII alphanumerics
  and `_ . - ~`, and turns a space into `+`.
-/

/-- Python exceptions that the methods of `APIUrl` can raise. -/
inductive PyError where
  | assertionError (msg : String)
  | typeError (msg : String)
deriving DecidableEq, Repr

/-- Python truthiness of an optional string: `None` and `""` are falsy. -/
def truthyStr : Option String → Bool
  | none => false
  | some s => !(s == "")

/-- Python truthiness of an optional integer: `None` and `0` are falsy. -/
def truthyInt : Option Int → Bool
  | none => false
  | some i => !(i == 0)

/-- Python truthiness of an optional bool: `None` and `False` are falsy. -/
def truthyBool : Option Bool → Bool
  | none => false
  | some b => b

/-- Python `str` of a bool: `str(True) == "True"`. -/
def pyStrBool (b : Bool) : String := if b then "True" else "False"

/-- Python `str.upper()` (over the characters; agrees with CPython on
ASCII): `String.toUpper` restated on the character list so that it is
kernel-evaluable. -/
def pyUpper (s : String) : String := ⟨s.data.map Char.toUpper⟩

/-- Uppercase hex digit, as used by `urllib.parse.quote_plus`. -/
def hexDigitChar (n : Nat) : Char :=
  if n < 10 then Char.ofNat (48 + n) else Char.ofNat (55 + n)

/-- UTF-8 bytes of a character (as natural numbers below 256). -/
def utf8Bytes (c : Char) : List Nat :=
  let n := c.toNat
  if n < 128 then [n]
  else if n < 2048 then [192 + n / 64, 128 + n % 64]
  else if n < 65536 then [224 + n / 4096, 128 + (n / 64) % 64, 128 + n % 64]
  else [240 + n / 262144, 128 + (n / 4096) % 64, 128 + (n / 64) % 64, 128 + n % 64]

/-- Python `quote_plus` on a single byte: ASCII alphanumerics and `_.-~` are kept,
a space becomes `+`, anything else becomes `%XX`. -/
def quoteByte (n : Nat) : String :=
  if (48 ≤ n ∧ n ≤ 57) ∨ (65 ≤ n ∧ n ≤ 90) ∨ (97 ≤ n ∧ n ≤ 122)
      ∨ n = 95 ∨ n = 46 ∨ n = 45 ∨ n = 126 then
    String.singleton (Char.ofNat n)
  else if n = 32 then "+"
  else "%" ++ String.singleton (hexDigitChar (n / 16)) ++ String.singleton (hexDigitChar (n % 16))

/-- Python `urllib.parse.quote_plus` over the UTF-8 encoding of a string. -/
def quotePlus (s : String) : String :=
  String.join (((s.data.map utf8Bytes).flatten).map quoteByte)

/-- One `key=value` component of `urllib.parse.urlencode`. -/
def urlencodePair (kv : String × String) : String :=
  quotePlus kv.1 ++ "=" ++ quotePlus kv.2

/-- Python `urllib.parse.urlencode(keys)`: percent-encoded pairs joined with `&`. -/
def urlencode (keys : List (String × String)) : String :=
  String.intercalate "&" (keys.map urlencodePair)

/-- The configuration object built by `APIUrl.__init__`. -/
structure APIUrl where
  username : String
  /-- Field `self._base_url` of the source class. -/
  base_url : String
  default_output_format : String
deriving DecidableEq, Repr

namespace APIUrl

/-- Translation of `APIUrl._create_base_url`. -/
def create_base_url (secure : Bool) : String :=
  if secure then "https://secure.geonames.org/" else "http://api.geonames.org/"

/-- Translation of `APIUrl.__init__`: the `isinstance` asserts are enforced by the Lean
types; the remaining assert restricts `default_output_format`. -/
def init (username : String) (secure : Bool) (default_output_format : String) :
    Except PyError APIUrl :=
  if default_output_format = "JSON" ∨ default_output_format = "XML" then
    .ok { username := username
          base_url := create_base_url secure
          default_output_format := default_output_format }
  else
    .error (.assertionError "default_output_format can only be JSON or XML.")

/-- Translation of `APIUrl._add_key_value`: appends `(key, str(value))` unless the value is
`None`.  The Python `str()` conversion is applied by each caller via
`Option.map` (`toString` for ints, `pyStrBool` for bools, identity for
strings), so the value here is already a string. -/
def add_key_value (keys : List (String × String)) (key : String) (value : Option String) :
    List (String × String) :=
  match value with
  | none => keys
  | some v => keys ++ [(key, v)]

/-- Translation of `APIUrl._create_bare_end_point`.  `additional_output_formats` is already
normalised to a list (`str` input stands for its singleton list).  When
`output_format` is truthy, uppercases to `"CSV"` and
`additional_output_formats` is `None`, the Python membership test
`output_format.upper() in additional_output_formats` raises a `TypeError`. -/
def create_bare_end_point (self : APIUrl) (secure : Option Bool) (end_point : String)
    (output_format : Option String) (additional_output_formats : Option (List String)) :
    Except PyError (String × List (String × String)) :=
  let base_url := if truthyBool secure then create_base_url true else self.base_url
  let url := base_url ++ end_point
  let urlE : Except PyError String :=
    if truthyStr output_format then
      let f := pyUpper (output_format.getD "")
      let url := if f = "JSON" then url ++ "JSON" else url
      if f = "CSV" then
        match additional_output_formats.map (List.map pyUpper) with
        | none => .error (.typeError "argument of type NoneType is not iterable")
        | some l => .ok (if f ∈ l then url ++ "CSV" else url)
      else .ok url
    else
      .ok (if self.default_output_format = "JSON" then url ++ "JSON" else url)
  match urlE with
  | .error e => .error e
  | .ok url => .ok (url ++ "?", [("username", self.username)])

/-- Common shape of every endpoint method except `search`: call
`_create_bare_end_point`, then run the endpoint's `assert`, then append the
endpoint's key-value pairs and urlencode them.  `check` is the endpoint's
assert (run after `_create_bare_end_point`, exactly as in the source) and
`build` is the endpoint's sequence of `_add_key_value` calls. -/
def bare_method (self : APIUrl) (secure : Option Bool) (end_point : String)
    (output_format : Option String) (additional_output_formats : Option (List String))
    (check : Except PyError Unit)
    (build : List (String × String) → List (String × String)) : Except PyError String :=
  match self.create_bare_end_point secure end_point output_format additional_output_formats with
  | .error e => .error e
  | .ok (url, keys) =>
    match check with
    | .error e => .error e
    | .ok _ => .ok (url ++ urlencode (build keys))

/-- Translation of `APIUrl._add_date`: the `datetime.date` input is already rendered as its
`"YYYY-MM-DD"` string, so this is `_add_key_value` with the given key. -/
def add_date (keys : List (String × String)) (date_to_add : Option String)
    (key : String) : List (String × String) :=
  add_key_value keys key date_to_add

/-- Translation of `APIUrl.search`. -/
def search (self : APIUrl) (q name name_equals name_starts_with : Option String)
    (max_rows start_row : Option Int) (country : Option (List String))
    (country_bias continent_code admin_code1 admin_code2 admin_code3 : Option String)
    (feature_class feature_code : Option (List String))
    (cities language style : Option String) ( is_name_required : Option Bool)
    (tag operator charset : Option String) (fuzzy : Option Int)
    (north east south west : Option Int)
    (search_language order_by include_bbox : Option String)
    (secure : Option Bool) (output_format : Option String) : Except PyError String :=
  if !(truthyStr q || truthyStr name || truthyStr name_equals) then
    .error (.assertionError "q, name or name_equals required")
  else
    let base_url := if truthyBool secure then create_base_url true else self.base_url
    let url := base_url ++ "search?"
    let keys : List (String × String) := [("username", self.username)]
    let keys := add_key_value keys "q" q
    let keys := add_key_value keys "name" name
    let keys := add_key_value keys "name_equals" name_equals
    let keys := add_key_value keys "name_startsWith" name_starts_with
    let keys := add_key_value keys "maxRows" (max_rows.map toString)
    let keys := add_key_value keys "startRow" (start_row.map toString)
    let keys :=
      match country with
      | none => keys
      | some cs => cs.foldl (fun ks c => add_key_value ks "country" (some c)) keys
    let keys := add_key_value keys "countryBias" country_bias
    let keys := add_key_value keys "continentCode" continent_code
    let keys := add_key_value keys "adminCode1" admin_code1
    let keys := add_key_value keys "adminCode2" admin_code2
    let keys := add_key_value keys "adminCode3" admin_code3
    let keys :=
      match feature_class with
      | none => keys
      | some fs => fs.foldl (fun ks f => add_key_value ks "featureClass" (some f)) keys
    let keys :=
      match feature_code with
      | none => keys
      | some fs => fs.foldl (fun ks f => add_key_value ks "featureCode" (some f)) keys
    let keys := add_key_value keys "cities" cities
    let keys := add_key_value keys "lang" language
    let keys := add_key_value keys "style" style
    let keys := add_key_value keys "isNameRequired" ( is_name_required.map pyStrBool)
    let keys := add_key_value keys "tag" tag
    let keys := add_key_value keys "operator" operator
    let keys := add_key_value keys "charset" charset
    let keys := add_key_value keys "fuzzy" (fuzzy.map toString)
    let keys :=
      -- `if None not in (north, east, south, west):`
      if north.isSome && east.isSome && south.isSome && west.isSome then
        let keys := add_key_value keys "north" (north.map toString)
        let keys := add_key_value keys "east" (east.map toString)
        let keys := add_key_value keys "south" (south.map toString)
        add_key_value keys "west" (west.map toString)
      else keys
    let keys := add_key_value keys "searchlang" search_language
    let keys := add_key_value keys "orderby" order_by
    let keys := add_key_value keys "inclBbox" include_bbox
    -- `if output_format is None: output_format = self.default_output_format`
    let output_format := output_format.getD self.default_output_format
    let keys := add_key_value keys "type" (some output_format)
    .ok (url ++ urlencode keys)

/-- Translation of `APIUrl.cities_and_place_names_bounding_box`; its assert is the
`None not in (north, east, south, west)` check. -/
def cities_and_place_names_bounding_box (self : APIUrl) (north east south west : Option Int)
    (language : Option String) (max_rows : Option Int) (secure : Option Bool)
    (output_format : Option String) : Except PyError String :=
  bare_method self secure "cities" output_format none
    (if north.isSome && east.isSome && south.isSome && west.isSome then .ok ()
     else .error (.assertionError "north, east, south and west are required parameters."))
    (fun keys =>
      let keys := add_key_value keys "north" (north.map toString)
      let keys := add_key_value keys "east" (east.map toString)
      let keys := add_key_value keys "south" (south.map toString)
      let keys := add_key_value keys "west" (west.map toString)
      let keys := add_key_value keys "lang" language
      add_key_value keys "maxRows" (max_rows.map toString))

/-- Translation of `APIUrl.children`; its assert is `assert geoname_id` (truthiness). -/
def children (self : APIUrl) (geoname_id : Option Int) (hierarchy : Option String)
    (max_rows : Option Int) (secure : Option Bool) (output_format : Option String) :
    Except PyError String :=
  bare_method self secure "children" output_format none
    (if truthyInt geoname_id then .ok ()
     else .error (.assertionError "geoname_id is a required parameter."))
    (fun keys =>
      let keys := add_key_value keys "geonameId" (geoname_id.map toString)
      let keys := add_key_value keys "hierarchy" hierarchy
      add_key_value keys "maxRows" (max_rows.map toString))

/-- Translation of `APIUrl.neighbours`; its assert is
`any((geoname_id, country)) and not all((geoname_id, country))`. -/
def neighbours (self : APIUrl) (geoname_id : Option Int) (country : Option String)
    (secure : Option Bool) (output_format : Option String) : Except PyError String :=
  bare_method self secure "neighbours" output_format none
    (if (truthyInt geoname_id || truthyStr country)
        && !(truthyInt geoname_id && truthyStr country) then .ok ()
     else .error (.assertionError "geoname_id or country is a required parameter."))
    (fun keys =>
      let keys := add_key_value keys "geonameId" (geoname_id.map toString)
      add_key_value keys "country" country)

/-- Translation of `APIUrl.hierarchy`; its assert is `assert geoname_id`. -/
def hierarchy (self : APIUrl) (geoname_id : Option Int) (secure : Option Bool)
    (output_format : Option String) : Except PyError String :=
  bare_method self secure "hierarchy" output_format none
    (if truthyInt geoname_id then .ok ()
     else .error (.assertionError "geoname_id is a required parameter."))
    (fun keys => add_key_value keys "geonameId" (geoname_id.map toString))

/-- Translation of `APIUrl.siblings`; its assert is `assert geoname_id`. -/
def siblings (self : APIUrl) (geoname_id : Option Int) (secure : Option Bool)
    (output_format : Option String) : Except PyError String :=
  bare_method self secure "siblings" output_format none
    (if truthyInt geoname_id then .ok ()
     else .error (.assertionError "geoname_id is a required parameter."))
    (fun keys => add_key_value keys "geonameId" (geoname_id.map toString))

/-- Translation of `APIUrl.postal_code_to_place_name`; its assert is `assert postal_code`. -/
def postal_code_to_place_name (self : APIUrl) (postal_code : Option String)
    (country charset : Option String) (max_rows : Option Int) (secure : Option Bool)
    (output_format : Option String) : Except PyError String :=
  bare_method self secure "postalCodeLookup" output_format none
    (if truthyStr postal_code then .ok ()
     else .error (.assertionError "postal_code is a required parameter."))
    (fun keys =>
      let keys := add_key_value keys "postalcode" postal_code
      let keys := add_key_value keys "country" country
      let keys := add_key_value keys "charset" charset
      add_key_value keys "maxRows" (max_rows.map toString))

/-- Translation of `APIUrl.wikipedia_find_nearby`; its assert is the two-branch
`(latitude + longitude) OR postal_code` check. -/
def wikipedia_find_nearby (self : APIUrl) (latitude longitude : Option Int)
    (postal_code : Option String) (radius : Option Int) (language : Option String)
    (max_rows : Option Int) (country : Option String) (secure : Option Bool)
    (output_format : Option String) : Except PyError String :=
  bare_method self secure "findNearbyWikipedia" output_format none
    (match postal_code with
     | none =>
       if latitude.isSome && longitude.isSome then .ok ()
       else .error (.assertionError
         "Either (latitude + longitude) OR postal_code should be provided.")
     | some _ =>
       if latitude.isNone || longitude.isNone then .ok ()
       else .error (.assertionError
         "Only (latitude + longitude) OR postal_code should be provided."))
    (fun keys =>
      let keys := add_key_value keys "lat" (latitude.map toString)
      let keys := add_key_value keys "lng" (longitude.map toString)
      let keys := add_key_value keys "postalcode" postal_code
      let keys := add_key_value keys "radius" (radius.map toString)
      let keys := add_key_value keys "lang" language
      let keys := add_key_value keys "maxRows" (max_rows.map toString)
      add_key_value keys "country" country)

/-- Translation of `APIUrl.wikipedia_fulltext_search`; its assert is `assert q`. -/
def wikipedia_fulltext_search (self : APIUrl) (q title language : Option String)
    (max_rows : Option Int) (secure : Option Bool) (output_format : Option String) :
    Except PyError String :=
  bare_method self secure "wikipediaSearch" output_format none
    (if truthyStr q then .ok ()
     else .error (.assertionError "q is a required parameter."))
    (fun keys =>
      let keys := add_key_value keys "q" q
      let keys := add_key_value keys "title" title
      let keys := add_key_value keys "lang" language
      add_key_value keys "maxRows" (max_rows.map toString))

/-- Translation of `APIUrl.wikipedia_bounding_box`; its assert is
`all((north, east, south, west))` (truthiness). -/
def wikipedia_bounding_box (self : APIUrl) (north east south west : Option Int)
    (language : Option String) (max_rows : Option Int) (secure : Option Bool)
    (output_format : Option String) : Except PyError String :=
  bare_method self secure "wikipediaBoundingBox" output_format none
    (if truthyInt north && truthyInt east && truthyInt south && truthyInt west then .ok ()
     else .error (.assertionError "north, east, south and west are required parameters."))
    (fun keys =>
      let keys := add_key_value keys "north" (north.map toString)
      let keys := add_key_value keys "east" (east.map toString)
      let keys := add_key_value keys "south" (south.map toString)
      let keys := add_key_value keys "west" (west.map toString)
      let keys := add_key_value keys "lang" language
      add_key_value keys "maxRows" (max_rows.map toString))

/-- Translation of `APIUrl.earthquakes_bounding_box`; its assert is
`all((north, east, south, west))` (truthiness). -/
def earthquakes_bounding_box (self : APIUrl) (north east south west : Option Int)
    (up_to_date : Option String) (min_magnitude max_rows : Option Int)
    (secure : Option Bool) (output_format : Option String) : Except PyError String :=
  bare_method self secure "earthquakes" output_format none
    (if truthyInt north && truthyInt east && truthyInt south && truthyInt west then .ok ()
     else .error (.assertionError "north, east, south and west are required parameters."))
    (fun keys =>
      let keys := add_key_value keys "north" (north.map toString)
      let keys := add_key_value keys "east" (east.map toString)
      let keys := add_key_value keys "south" (south.map toString)
      let keys := add_key_value keys "west" (west.map toString)
      let keys := add_key_value keys "minMagnitude" (min_magnitude.map toString)
      let keys := add_key_value keys "maxRows" (max_rows.map toString)
      add_date keys up_to_date "date")

/-- Translation of `APIUrl.weather_station_bounding_box`; its assert is
`all((north, east, south, west))` (truthiness). -/
def weather_station_bounding_box (self : APIUrl) (north east south west : Option Int)
    (max_rows : Option Int) (secure : Option Bool) (output_format : Option String) :
    Except PyError String :=
  bare_method self secure "weather" output_format none
    (if truthyInt north && truthyInt east && truthyInt south && truthyInt west then .ok ()
     else .error (.assertionError "north, east, south and west are required parameters."))
    (fun keys =>
      let keys := add_key_value keys "north" (north.map toString)
      let keys := add_key_value keys "east" (east.map toString)
      let keys := add_key_value keys "south" (south.map toString)
      let keys := add_key_value keys "west" (west.map toString)
      add_key_value keys "maxRows" (max_rows.map toString))

/-- Translation of `APIUrl.weather_station_icao`; its assert is `assert icao`. -/
def weather_station_icao (self : APIUrl) (icao : Option String) (secure : Option Bool)
    (output_format : Option String) : Except PyError String :=
  bare_method self secure "weatherIcao" output_format none
    (if truthyStr icao then .ok ()
     else .error (.assertionError "icao is a required parameter."))
    (fun keys => add_key_value keys "ICAO" icao)

/-- Translation of `APIUrl.weather_station_find_nearby`; its assert is
`assert latitude or longitude` (truthiness of either coordinate). -/
def weather_station_find_nearby (self : APIUrl) (latitude longitude radius : Option Int)
    (secure : Option Bool) (output_format : Option String) : Except PyError String :=
  bare_method self secure "findNearByWeather" output_format none
    (if truthyInt latitude || truthyInt longitude then .ok ()
     else .error (.assertionError "latitude and longitude are required parameters."))
    (fun keys =>
      let keys := add_key_value keys "lat" (latitude.map toString)
      let keys := add_key_value keys "lng" (longitude.map toString)
      add_key_value keys "radius" (radius.map toString))

/-- Translation of `APIUrl.country_info`: the only endpoint passing
`additional_output_formats="CSV"`; it has no assert. -/
def country_info (self : APIUrl) (country : Option (List String))
    (language : Option String) (secure : Option Bool) (output_format : Option String) :
    Except PyError String :=
  bare_method self secure "countryInfo" output_format (some ["CSV"]) (.ok ())
    (fun keys =>
      let keys :=
        match country with
        | none => keys
        | some cs => cs.foldl (fun ks c => add_key_value ks "country" (some c)) keys
      add_key_value keys "lang" language)

/-- Translation of `APIUrl.ocean`; its assert is `assert latitude or longitude`. -/
def ocean (self : APIUrl) (latitude longitude radius : Option Int)
    (secure : Option Bool) (output_format : Option String) : Except PyError String :=
  bare_method self secure "ocean" output_format none
    (if truthyInt latitude || truthyInt longitude then .ok ()
     else .error (.assertionError "latitude and longitude are required parameters."))
    (fun keys =>
      let keys := add_key_value keys "lat" (latitude.map toString)
      let keys := add_key_value keys "lng" (longitude.map toString)
      add_key_value keys "radius" (radius.map toString))

/-- Translation of `APIUrl.timezone`; its assert is `assert latitude or longitude`. -/
def timezone (self : APIUrl) (latitude longitude radius : Option Int)
    (language : Option String) (sunrise_sunset_date : Option String)
    (secure : Option Bool) (output_format : Option String) : Except PyError String :=
  bare_method self secure "timezone" output_format none
    (if truthyInt latitude || truthyInt longitude then .ok ()
     else .error (.assertionError "latitude and longitude are required parameters."))
    (fun keys =>
      let keys := add_key_value keys "lat" (latitude.map toString)
      let keys := add_key_value keys "lng" (longitude.map toString)
      let keys := add_key_value keys "radius" (radius.map toString)
      let keys := add_key_value keys "lang" language
      add_date keys sunrise_sunset_date "date")

end APIUrl

/-- One call to one endpoint method of `APIUrl`, with its arguments: the
universe over which the claims about "every endpoint method" are stated. -/
inductive EndpointCall where
  | search (q name name_equals name_starts_with : Option String)
      (max_rows start_row : Option Int) (country : Option (List String))
      (country_bias continent_code admin_code1 admin_code2 admin_code3 : Option String)
      (feature_class feature_code : Option (List String))
      (cities language style : Option String) ( is_name_required : Option Bool)
      (tag operator charset : Option String) (fuzzy : Option Int)
      (north east south west : Option Int)
      (search_language order_by include_bbox : Option String)
      (secure : Option Bool) (output_format : Option String)
  | cities_and_place_names_bounding_box (north east south west : Option Int)
      (language : Option String) (max_rows : Option Int) (secure : Option Bool)
      (output_format : Option String)
  | children (geoname_id : Option Int) (hierarchy : Option String) (max_rows : Option Int)
      (secure : Option Bool) (output_format : Option String)
  | neighbours (geoname_id : Option Int) (country : Option String)
      (secure : Option Bool) (output_format : Option String)
  | hierarchy (geoname_id : Option Int) (secure : Option Bool) (output_format : Option String)
  | siblings (geoname_id : Option Int) (secure : Option Bool) (output_format : Option String)
  | postal_code_to_place_name (postal_code country charset : Option String)
      (max_rows : Option Int) (secure : Option Bool) (output_format : Option String)
  | wikipedia_find_nearby (latitude longitude : Option Int) (postal_code : Option String)
      (radius : Option Int) (language : Option String) (max_rows : Option Int)
      (country : Option String) (secure : Option Bool) (output_format : Option String)
  | wikipedia_fulltext_search (q title language : Option String) (max_rows : Option Int)
      (secure : Option Bool) (output_format : Option String)
  | wikipedia_bounding_box (north east south west : Option Int) (language : Option String)
      (max_rows : Option Int) (secure : Option Bool) (output_format : Option String)
  | earthquakes_bounding_box (north east south west : Option Int) (up_to_date : Option String)
      (min_magnitude max_rows : Option Int) (secure : Option Bool) (output_format : Option String)
  | weather_station_bounding_box (north east south west : Option Int) (max_rows : Option Int)
      (secure : Option Bool) (output_format : Option String)
  | weather_station_icao (icao : Option String) (secure : Option Bool)
      (output_format : Option String)
  | weather_station_find_nearby (latitude longitude radius : Option Int)
      (secure : Option Bool) (output_format : Option String)
  | country_info (country : Option (List String)) (language : Option String)
      (secure : Option Bool) (output_format : Option String)
  | ocean (latitude longitude radius : Option Int) (secure : Option Bool)
      (output_format : Option String)
  | timezone (latitude longitude radius : Option Int) (language : Option String)
      (sunrise_sunset_date : Option String) (secure : Option Bool)
      (output_format : Option String)

namespace APIUrl

/-- Dispatch one endpoint call to the corresponding method. -/
def call (self : APIUrl) : EndpointCall → Except PyError String
  | .search q name ne nsw mr sr co cb cc a1 a2 a3 fcl fco ci la st inr tg op cs fz n e s w sl ob ib sec of =>
    self.search q name ne nsw mr sr co cb cc a1 a2 a3 fcl fco ci la st inr tg op cs fz n e s w sl ob ib sec of
  | .cities_and_place_names_bounding_box n e s w la mr sec of =>
    self.cities_and_place_names_bounding_box n e s w la mr sec of
  | .children gid h mr sec of => self.children gid h mr sec of
  | .neighbours gid co sec of => self.neighbours gid co sec of
  | .hierarchy gid sec of => self.hierarchy gid sec of
  | .siblings gid sec of => self.siblings gid sec of
  | .postal_code_to_place_name pc co cs mr sec of => self.postal_code_to_place_name pc co cs mr sec of
  | .wikipedia_find_nearby la lo pc r lg mr co sec of => self.wikipedia_find_nearby la lo pc r lg mr co sec of
  | .wikipedia_fulltext_search q ti lg mr sec of => self.wikipedia_fulltext_search q ti lg mr sec of
  | .wikipedia_bounding_box n e s w lg mr sec of => self.wikipedia_bounding_box n e s w lg mr sec of
  | .earthquakes_bounding_box n e s w ud mm mr sec of => self.earthquakes_bounding_box n e s w ud mm mr sec of
  | .weather_station_bounding_box n e s w mr sec of => self.weather_station_bounding_box n e s w mr sec of
  | .weather_station_icao ic sec of => self.weather_station_icao ic sec of
  | .weather_station_find_nearby la lo r sec of => self.weather_station_find_nearby la lo r sec of
  | .country_info co lg sec of => self.country_info co lg sec of
  | .ocean la lo r sec of => self.ocean la lo r sec of
  | .timezone la lo r lg sd sec of => self.timezone la lo r lg sd sec of

/-- State-passing form of an endpoint call.  No method body of the source
assigns to any attribute of `self` (the only mutation is of the local
`keys` list), so the post-state of a call is the pre-state. -/
def call_state (self : APIUrl) (ec : EndpointCall) : Except PyError String × APIUrl :=
  (self.call ec, self)

end APIUrl

/-! ## Specification side

The following definitions restate, in the spec's words, what each endpoint
assembles: "an ordered list of key-value pairs from present (non-null)
arguments" appended to a fixed base path.  They are compared with the
translated methods by the refinement theorems below. -/

/-- The pair contributed by one present (non-`None`) scalar argument. -/
def optPair (key : String) : Option String → List (String × String)
  | none => []
  | some v => [(key, v)]

/-- The pairs contributed by a list-valued argument: one per element. -/
def listPairs (key : String) : Option (List String) → List (String × String)
  | none => []
  | some l => l.map (fun v => (key, v))

namespace APIUrl

/-- The URL part before `"?"` produced by `_create_bare_end_point` when it
does not raise: base selected by the per-call `secure` override, the
endpoint path, and the output-format suffix. -/
def end_point_core (c : APIUrl) (secure : Option Bool) (end_point : String)
    (output_format : Option String) (additional_output_formats : Option (List String)) :
    String :=
  let base := if truthyBool secure then create_base_url true else c.base_url
  let url := base ++ end_point
  if truthyStr output_format then
    let f := pyUpper (output_format.getD "")
    let url := if f = "JSON" then url ++ "JSON" else url
    if f = "CSV" ∧ f ∈ (additional_output_formats.getD []).map pyUpper then
      url ++ "CSV"
    else url
  else if c.default_output_format = "JSON" then url ++ "JSON" else url

/-- The full URL prefix (ending in `"?"`) produced by
`_create_bare_end_point` when it does not raise. -/
def end_point_url (c : APIUrl) (secure : Option Bool) (end_point : String)
    (output_format : Option String) (additional_output_formats : Option (List String)) :
    String :=
  end_point_core c secure end_point output_format additional_output_formats ++ "?"

/-- Specification shape of every endpoint method except `search`: the
`TypeError` of the CSV membership test on `None`, else the endpoint's
assert, else the encoded URL with `username` first and the endpoint's
pairs after it. -/
def bare_spec (c : APIUrl) (secure : Option Bool) (end_point : String)
    (output_format : Option String) (additional_output_formats : Option (List String))
    (check : Except PyError Unit) (pairs : List (String × String)) :
    Except PyError String :=
  if truthyStr output_format = true ∧ pyUpper (output_format.getD "") = "CSV"
      ∧ additional_output_formats = none then
    .error (.typeError "argument of type NoneType is not iterable")
  else
    match check with
    | .error e => .error e
    | .ok _ =>
      .ok (end_point_url c secure end_point output_format additional_output_formats
            ++ urlencode ([("username", c.username)] ++ pairs))

end APIUrl

/-- Pairs assembled by `search` before the bounding-box block, in the
method's fixed order. -/
def searchPairsA (q name name_equals name_starts_with : Option String)
    (max_rows start_row : Option Int) (country : Option (List String))
    (country_bias continent_code admin_code1 admin_code2 admin_code3 : Option String)
    (feature_class feature_code : Option (List String))
    (cities language style : Option String) ( is_name_required : Option Bool)
    (tag operator charset : Option String) (fuzzy : Option Int) : List (String × String) :=
  optPair "q" q ++ optPair "name" name ++ optPair "name_equals" name_equals
  ++ optPair "name_startsWith" name_starts_with
  ++ optPair "maxRows" (max_rows.map toString) ++ optPair "startRow" (start_row.map toString)
  ++ listPairs "country" country ++ optPair "countryBias" country_bias
  ++ optPair "continentCode" continent_code
  ++ optPair "adminCode1" admin_code1 ++ optPair "adminCode2" admin_code2
  ++ optPair "adminCode3" admin_code3
  ++ listPairs "featureClass" feature_class ++ listPairs "featureCode" feature_code
  ++ optPair "cities" cities ++ optPair "lang" language ++ optPair "style" style
  ++ optPair "isNameRequired" ( is_name_required.map pyStrBool)
  ++ optPair "tag" tag ++ optPair "operator" operator ++ optPair "charset" charset
  ++ optPair "fuzzy" (fuzzy.map toString)

/-- Pairs assembled by `search` after the bounding-box block: `type` is
always appended, from `output_format` or the configured default. -/
def searchPairsB (c : APIUrl) (search_language order_by include_bbox : Option String)
    (output_format : Option String) : List (String × String) :=
  optPair "searchlang" search_language ++ optPair "orderby" order_by
  ++ optPair "inclBbox" include_bbox
  ++ [("type", output_format.getD c.default_output_format)]

/-- Pairs assembled by `search` (after the leading `username` pair), in the
method's fixed order.  The four bounding-box edges contribute only when all
four are non-`None`; `country`, `feature_class` and `feature_code`
contribute one pair per element. -/
def searchPairs (c : APIUrl) (q name name_equals name_starts_with : Option String)
    (max_rows start_row : Option Int) (country : Option (List String))
    (country_bias continent_code admin_code1 admin_code2 admin_code3 : Option String)
    (feature_class feature_code : Option (List String))
    (cities language style : Option String) ( is_name_required : Option Bool)
    (tag operator charset : Option String) (fuzzy : Option Int)
    (north east south west : Option Int)
    (search_language order_by include_bbox : Option String)
    (output_format : Option String) : List (String × String) :=
  searchPairsA q name name_equals name_starts_with max_rows start_row country
    country_bias continent_code admin_code1 admin_code2 admin_code3
    feature_class feature_code cities language style is_name_required
    tag operator charset fuzzy
  ++ (if north.isSome && east.isSome && south.isSome && west.isSome then
        optPair "north" (north.map toString) ++ optPair "east" (east.map toString)
        ++ optPair "south" (south.map toString) ++ optPair "west" (west.map toString)
      else [])
  ++ searchPairsB c search_language order_by include_bbox output_format

/-- Pairs assembled by `cities_and_place_names_bounding_box`. -/
def citiesPairs (north east south west : Option Int) (language : Option String)
    (max_rows : Option Int) : List (String × String) :=
  optPair "north" (north.map toString) ++ optPair "east" (east.map toString)
  ++ optPair "south" (south.map toString) ++ optPair "west" (west.map toString)
  ++ optPair "lang" language ++ optPair "maxRows" (max_rows.map toString)

/-- Pairs assembled by `children`. -/
def childrenPairs (geoname_id : Option Int) (hierarchy : Option String)
    (max_rows : Option Int) : List (String × String) :=
  optPair "geonameId" (geoname_id.map toString) ++ optPair "hierarchy" hierarchy
  ++ optPair "maxRows" (max_rows.map toString)

/-- Pairs assembled by `neighbours`. -/
def neighboursPairs (geoname_id : Option Int) (country : Option String) :
    List (String × String) :=
  optPair "geonameId" (geoname_id.map toString) ++ optPair "country" country

/-- Pairs assembled by `hierarchy` and by `siblings`. -/
def geonameIdPairs (geoname_id : Option Int) : List (String × String) :=
  optPair "geonameId" (geoname_id.map toString)

/-- Pairs assembled by `postal_code_to_place_name`. -/
def postalPairs (postal_code country charset : Option String) (max_rows : Option Int) :
    List (String × String) :=
  optPair "postalcode" postal_code ++ optPair "country" country
  ++ optPair "charset" charset ++ optPair "maxRows" (max_rows.map toString)

/-- Pairs assembled by `wikipedia_find_nearby`. -/
def wikipediaNearbyPairs (latitude longitude : Option Int) (postal_code : Option String)
    (radius : Option Int) (language : Option String) (max_rows : Option Int)
    (country : Option String) : List (String × String) :=
  optPair "lat" (latitude.map toString) ++ optPair "lng" (longitude.map toString)
  ++ optPair "postalcode" postal_code ++ optPair "radius" (radius.map toString)
  ++ optPair "lang" language ++ optPair "maxRows" (max_rows.map toString)
  ++ optPair "country" country

/-- Pairs assembled by `wikipedia_fulltext_search`. -/
def wikipediaSearchPairs (q title language : Option String) (max_rows : Option Int) :
    List (String × String) :=
  optPair "q" q ++ optPair "title" title ++ optPair "lang" language
  ++ optPair "maxRows" (max_rows.map toString)

/-- Pairs assembled by `wikipedia_bounding_box`. -/
def wikipediaBoxPairs (north east south west : Option Int) (language : Option String)
    (max_rows : Option Int) : List (String × String) :=
  optPair "north" (north.map toString) ++ optPair "east" (east.map toString)
  ++ optPair "south" (south.map toString) ++ optPair "west" (west.map toString)
  ++ optPair "lang" language ++ optPair "maxRows" (max_rows.map toString)

/-- Pairs assembled by `earthquakes_bounding_box`. -/
def earthquakesPairs (north east south west : Option Int) (up_to_date : Option String)
    (min_magnitude max_rows : Option Int) : List (String × String) :=
  optPair "north" (north.map toString) ++ optPair "east" (east.map toString)
  ++ optPair "south" (south.map toString) ++ optPair "west" (west.map toString)
  ++ optPair "minMagnitude" (min_magnitude.map toString)
  ++ optPair "maxRows" (max_rows.map toString) ++ optPair "date" up_to_date

/-- Pairs assembled by `weather_station_bounding_box`. -/
def weatherBoxPairs (north east south west : Option Int) (max_rows : Option Int) :
    List (String × String) :=
  optPair "north" (north.map toString) ++ optPair "east" (east.map toString)
  ++ optPair "south" (south.map toString) ++ optPair "west" (west.map toString)
  ++ optPair "maxRows" (max_rows.map toString)

/-- Pairs assembled by `weather_station_icao`. -/
def icaoPairs (icao : Option String) : List (String × String) :=
  optPair "ICAO" icao

/-- Pairs assembled by `weather_station_find_nearby` and by `ocean`. -/
def latLngRadiusPairs (latitude longitude radius : Option Int) : List (String × String) :=
  optPair "lat" (latitude.map toString) ++ optPair "lng" (longitude.map toString)
  ++ optPair "radius" (radius.map toString)

/-- Pairs assembled by `country_info`. -/
def countryInfoPairs (country : Option (List String)) (language : Option String) :
    List (String × String) :=
  listPairs "country" country ++ optPair "lang" language

/-- Pairs assembled by `timezone`. -/
def timezonePairs (latitude longitude radius : Option Int) (language : Option String)
    (sunrise_sunset_date : Option String) : List (String × String) :=
  optPair "lat" (latitude.map toString) ++ optPair "lng" (longitude.map toString)
  ++ optPair "radius" (radius.map toString) ++ optPair "lang" language
  ++ optPair "date" sunrise_sunset_date

namespace APIUrl

/-- Specification of `call`: per endpoint, the documented precondition and
the ordered list of pairs contributed by the present arguments. -/
def call_spec (c : APIUrl) : EndpointCall → Except PyError String
  | .search q name ne nsw mr sr co cb cc a1 a2 a3 fcl fco ci la st inr tg op cs fz n e s w sl ob ib sec of =>
    if !(truthyStr q || truthyStr name || truthyStr ne) then
      .error (.assertionError "q, name or name_equals required")
    else
      .ok (((if truthyBool sec then create_base_url true else c.base_url) ++ "search?")
        ++ urlencode ([("username", c.username)]
            ++ searchPairs c q name ne nsw mr sr co cb cc a1 a2 a3 fcl fco ci la st inr tg op cs fz n e s w sl ob ib of))
  | .cities_and_place_names_bounding_box n e s w la mr sec of =>
    bare_spec c sec "cities" of none
      (if n.isSome && e.isSome && s.isSome && w.isSome then .ok ()
       else .error (.assertionError "north, east, south and west are required parameters."))
      (citiesPairs n e s w la mr)
  | .children gid h mr sec of =>
    bare_spec c sec "children" of none
      (if truthyInt gid then .ok ()
       else .error (.assertionError "geoname_id is a required parameter."))
      (childrenPairs gid h mr)
  | .neighbours gid co sec of =>
    bare_spec c sec "neighbours" of none
      (if (truthyInt gid || truthyStr co) && !(truthyInt gid && truthyStr co) then .ok ()
       else .error (.assertionError "geoname_id or country is a required parameter."))
      (neighboursPairs gid co)
  | .hierarchy gid sec of =>
    bare_spec c sec "hierarchy" of none
      (if truthyInt gid then .ok ()
       else .error (.assertionError "geoname_id is a required parameter."))
      (geonameIdPairs gid)
  | .siblings gid sec of =>
    bare_spec c sec "siblings" of none
      (if truthyInt gid then .ok ()
       else .error (.assertionError "geoname_id is a required parameter."))
      (geonameIdPairs gid)
  | .postal_code_to_place_name pc co cs mr sec of =>
    bare_spec c sec "postalCodeLookup" of none
      (if truthyStr pc then .ok ()
       else .error (.assertionError "postal_code is a required parameter."))
      (postalPairs pc co cs mr)
  | .wikipedia_find_nearby la lo pc r lg mr co sec of =>
    bare_spec c sec "findNearbyWikipedia" of none
      (match pc with
       | none =>
         if la.isSome && lo.isSome then .ok ()
         else .error (.assertionError
           "Either (latitude + longitude) OR postal_code should be provided.")
       | some _ =>
         if la.isNone || lo.isNone then .ok ()
         else .error (.assertionError
           "Only (latitude + longitude) OR postal_code should be provided."))
      (wikipediaNearbyPairs la lo pc r lg mr co)
  | .wikipedia_fulltext_search q ti lg mr sec of =>
    bare_spec c sec "wikipediaSearch" of none
      (if truthyStr q then .ok ()
       else .error (.assertionError "q is a required parameter."))
      (wikipediaSearchPairs q ti lg mr)
  | .wikipedia_bounding_box n e s w lg mr sec of =>
    bare_spec c sec "wikipediaBoundingBox" of none
      (if truthyInt n && truthyInt e && truthyInt s && truthyInt w then .ok ()
       else .error (.assertionError "north, east, south and west are required parameters."))
      (wikipediaBoxPairs n e s w lg mr)
  | .earthquakes_bounding_box n e s w ud mm mr sec of =>
    bare_spec c sec "earthquakes" of none
      (if truthyInt n && truthyInt e && truthyInt s && truthyInt w then .ok ()
       else .error (.assertionError "north, east, south and west are required parameters."))
      (earthquakesPairs n e s w ud mm mr)
  | .weather_station_bounding_box n e s w mr sec of =>
    bare_spec c sec "weather" of none
      (if truthyInt n && truthyInt e && truthyInt s && truthyInt w then .ok ()
       else .error (.assertionError "north, east, south and west are required parameters."))
      (weatherBoxPairs n e s w mr)
  | .weather_station_icao ic sec of =>
    bare_spec c sec "weatherIcao" of none
      (if truthyStr ic then .ok ()
       else .error (.assertionError "icao is a required parameter."))
      (icaoPairs ic)
  | .weather_station_find_nearby la lo r sec of =>
    bare_spec c sec "findNearByWeather" of none
      (if truthyInt la || truthyInt lo then .ok ()
       else .error (.assertionError "latitude and longitude are required parameters."))
      (latLngRadiusPairs la lo r)
  | .country_info co lg sec of =>
    bare_spec c sec "countryInfo" of (some ["CSV"]) (.ok ())
      (countryInfoPairs co lg)
  | .ocean la lo r sec of =>
    bare_spec c sec "ocean" of none
      (if truthyInt la || truthyInt lo then .ok ()
       else .error (.assertionError "latitude and longitude are required parameters."))
      (latLngRadiusPairs la lo r)
  | .timezone la lo r lg sd sec of =>
    bare_spec c sec "timezone" of none
      (if truthyInt la || truthyInt lo then .ok ()
       else .error (.assertionError "latitude and longitude are required parameters."))
      (timezonePairs la lo r lg sd)

end APIUrl

/-! ## Helper lemmas -/

theorem APIUrl.add_key_value_eq (ks : List (String × String)) (k : String) (v : Option String) :
    APIUrl.add_key_value ks k v = ks ++ optPair k v := by
  cases v <;> simp [APIUrl.add_key_value, optPair]

theorem APIUrl.foldl_append_pair (k : String) (l : List String)
    (ks : List (String × String)) :
    List.foldl (fun a c => a ++ [(k, c)]) ks l = ks ++ l.map (fun v => (k, v)) := by
  induction l generalizing ks with
  | nil => simp
  | cons x xs ih => rw [List.foldl_cons, ih]; simp

theorem APIUrl.foldl_add_key_value (k : String) (l : List String)
    (ks : List (String × String)) :
    l.foldl (fun a c => APIUrl.add_key_value a k (some c)) ks
      = ks ++ l.map (fun v => (k, v)) := by
  have h : (fun (a : List (String × String)) (c : String) =>
      APIUrl.add_key_value a k (some c)) = fun a c => a ++ [(k, c)] := by
    funext a c; rfl
  rw [h, APIUrl.foldl_append_pair]

theorem APIUrl.match_list_arg_eq (k : String) (o : Option (List String))
    (ks : List (String × String)) :
    (match o with
     | none => ks
     | some cs => cs.foldl (fun a c => APIUrl.add_key_value a k (some c)) ks)
      = ks ++ listPairs k o := by
  cases o with
  | none => simp [listPairs]
  | some l => simp [listPairs, APIUrl.foldl_add_key_value]

theorem APIUrl.create_bare_end_point_eq (c : APIUrl) (sec : Option Bool) (ep : String)
    (of : Option String) (aof : Option (List String)) :
    APIUrl.create_bare_end_point c sec ep of aof =
      if truthyStr of = true ∧ pyUpper (of.getD "") = "CSV" ∧ aof = none then
        .error (.typeError "argument of type NoneType is not iterable")
      else
        .ok (APIUrl.end_point_url c sec ep of aof, [("username", c.username)]) := by
  unfold APIUrl.create_bare_end_point APIUrl.end_point_url APIUrl.end_point_core
  by_cases h1 : truthyStr of = true
  · by_cases h2 : pyUpper (of.getD "") = "CSV"
    · cases aof with
      | none => simp [h1, h2]
      | some l => simp [h1, h2]
    · cases aof with
      | none => simp [h1, h2]
      | some l => simp [h1, h2]
  · simp [h1]

theorem APIUrl.bare_method_eq (c : APIUrl) (sec : Option Bool) (ep : String)
    (of : Option String) (aof : Option (List String)) (check : Except PyError Unit)
    (build : List (String × String) → List (String × String))
    (pairs : List (String × String))
    (hb : build [("username", c.username)] = [("username", c.username)] ++ pairs) :
    APIUrl.bare_method c sec ep of aof check build
      = APIUrl.bare_spec c sec ep of aof check pairs := by
  unfold APIUrl.bare_method APIUrl.bare_spec
  rw [APIUrl.create_bare_end_point_eq]
  by_cases h : truthyStr of = true ∧ pyUpper (of.getD "") = "CSV" ∧ aof = none
  · rw [if_pos h, if_pos h]
  · rw [if_neg h, if_neg h]
    cases check with
    | error e => rfl
    | ok u => simp [hb]

/-- The central refinement: every endpoint call computes exactly what the
specification-side `call_spec` describes. -/
theorem APIUrl.call_eq_call_spec (c : APIUrl) (ec : EndpointCall) :
    c.call ec = c.call_spec ec := by
  cases ec with
  | search q name ne nsw mr sr co cb cc a1 a2 a3 fcl fco ci la st inr tg op cs fz n e s w sl ob ib sec of =>
    simp only [APIUrl.call, APIUrl.call_spec]
    unfold APIUrl.search
    by_cases hpre : (!(truthyStr q || truthyStr name || truthyStr ne)) = true
    · rw [if_pos hpre, if_pos hpre]
    · rw [if_neg hpre, if_neg hpre]
      by_cases hbox : (n.isSome && e.isSome && s.isSome && w.isSome) = true <;>
        cases co <;> cases fcl <;> cases fco <;>
        simp [searchPairs, searchPairsA, searchPairsB, listPairs, optPair,
          APIUrl.add_key_value_eq, APIUrl.foldl_append_pair, APIUrl.foldl_add_key_value,
          hbox, List.append_assoc]
  | cities_and_place_names_bounding_box n e s w la mr sec of =>
    exact APIUrl.bare_method_eq _ _ _ _ _ _ _ _
      (by simp [citiesPairs, APIUrl.add_key_value_eq, List.append_assoc])
  | children gid h mr sec of =>
    exact APIUrl.bare_method_eq _ _ _ _ _ _ _ _
      (by simp [childrenPairs, APIUrl.add_key_value_eq, List.append_assoc])
  | neighbours gid co sec of =>
    exact APIUrl.bare_method_eq _ _ _ _ _ _ _ _
      (by simp [neighboursPairs, APIUrl.add_key_value_eq, List.append_assoc])
  | hierarchy gid sec of =>
    exact APIUrl.bare_method_eq _ _ _ _ _ _ _ _
      (by simp [geonameIdPairs, APIUrl.add_key_value_eq, List.append_assoc])
  | siblings gid sec of =>
    exact APIUrl.bare_method_eq _ _ _ _ _ _ _ _
      (by simp [geonameIdPairs, APIUrl.add_key_value_eq, List.append_assoc])
  | postal_code_to_place_name pc co cs mr sec of =>
    exact APIUrl.bare_method_eq _ _ _ _ _ _ _ _
      (by simp [postalPairs, APIUrl.add_key_value_eq, List.append_assoc])
  | wikipedia_find_nearby la lo pc r lg mr co sec of =>
    exact APIUrl.bare_method_eq _ _ _ _ _ _ _ _
      (by simp [wikipediaNearbyPairs, APIUrl.add_key_value_eq, List.append_assoc])
  | wikipedia_fulltext_search q ti lg mr sec of =>
    exact APIUrl.bare_method_eq _ _ _ _ _ _ _ _
      (by simp [wikipediaSearchPairs, APIUrl.add_key_value_eq, List.append_assoc])
  | wikipedia_bounding_box n e s w lg mr sec of =>
    exact APIUrl.bare_method_eq _ _ _ _ _ _ _ _
      (by simp [wikipediaBoxPairs, APIUrl.add_key_value_eq, List.append_assoc])
  | earthquakes_bounding_box n e s w ud mm mr sec of =>
    exact APIUrl.bare_method_eq _ _ _ _ _ _ _ _
      (by simp [earthquakesPairs, APIUrl.add_date, APIUrl.add_key_value_eq, List.append_assoc])
  | weather_station_bounding_box n e s w mr sec of =>
    exact APIUrl.bare_method_eq _ _ _ _ _ _ _ _
      (by simp [weatherBoxPairs, APIUrl.add_key_value_eq, List.append_assoc])
  | weather_station_icao ic sec of =>
    exact APIUrl.bare_method_eq _ _ _ _ _ _ _ _
      (by simp [icaoPairs, APIUrl.add_key_value_eq, List.append_assoc])
  | weather_station_find_nearby la lo r sec of =>
    exact APIUrl.bare_method_eq _ _ _ _ _ _ _ _
      (by simp [latLngRadiusPairs, APIUrl.add_key_value_eq, List.append_assoc])
  | country_info co lg sec of =>
    simp only [APIUrl.call, APIUrl.call_spec]
    unfold APIUrl.country_info
    refine APIUrl.bare_method_eq _ _ _ _ _ _ _ _ ?_
    cases co <;> simp [countryInfoPairs, listPairs, optPair, APIUrl.add_key_value_eq,
      APIUrl.foldl_append_pair, APIUrl.foldl_add_key_value, List.append_assoc]
  | ocean la lo r sec of =>
    exact APIUrl.bare_method_eq _ _ _ _ _ _ _ _
      (by simp [latLngRadiusPairs, APIUrl.add_key_value_eq, List.append_assoc])
  | timezone la lo r lg sd sec of =>
    exact APIUrl.bare_method_eq _ _ _ _ _ _ _ _
      (by simp [timezonePairs, APIUrl.add_date, APIUrl.add_key_value_eq, List.append_assoc])

/-! ## Further helpers for stating and proving the claims -/

/-- Decidable substring test (used only in statements). -/
def strContains (s pat : String) : Bool :=
  s.data.tails.any (fun t => pat.data.isPrefixOf t)

/-- A sample configuration, as built by `APIUrl("u")` (secure and JSON by
default). -/
def demoCfg : APIUrl :=
  { username := "u", base_url := APIUrl.create_base_url true, default_output_format := "JSON" }

/-- A sample configuration, as built by `APIUrl("u", secure=False)`. -/
def demoCfgInsecure : APIUrl :=
  { username := "u", base_url := APIUrl.create_base_url false, default_output_format := "JSON" }

/-- The per-call `secure` argument of an endpoint call. -/
def EndpointCall.secure_arg : EndpointCall → Option Bool
  | .search _ _ _ _ _ _ _ _ _ _ _ _ _ _ _ _ _ _ _ _ _ _ _ _ _ _ _ _ _ sec _ => sec
  | .cities_and_place_names_bounding_box _ _ _ _ _ _ sec _ => sec
  | .children _ _ _ sec _ => sec
  | .neighbours _ _ sec _ => sec
  | .hierarchy _ sec _ => sec
  | .siblings _ sec _ => sec
  | .postal_code_to_place_name _ _ _ _ sec _ => sec
  | .wikipedia_find_nearby _ _ _ _ _ _ _ sec _ => sec
  | .wikipedia_fulltext_search _ _ _ _ sec _ => sec
  | .wikipedia_bounding_box _ _ _ _ _ _ sec _ => sec
  | .earthquakes_bounding_box _ _ _ _ _ _ _ sec _ => sec
  | .weather_station_bounding_box _ _ _ _ _ sec _ => sec
  | .weather_station_icao _ sec _ => sec
  | .weather_station_find_nearby _ _ _ sec _ => sec
  | .country_info _ _ sec _ => sec
  | .ocean _ _ _ sec _ => sec
  | .timezone _ _ _ _ _ sec _ => sec

/-- The per-call `output_format` argument of an endpoint call. -/
def EndpointCall.output_format_arg : EndpointCall → Option String
  | .search _ _ _ _ _ _ _ _ _ _ _ _ _ _ _ _ _ _ _ _ _ _ _ _ _ _ _ _ _ _ of => of
  | .cities_and_place_names_bounding_box _ _ _ _ _ _ _ of => of
  | .children _ _ _ _ of => of
  | .neighbours _ _ _ of => of
  | .hierarchy _ _ of => of
  | .siblings _ _ of => of
  | .postal_code_to_place_name _ _ _ _ _ of => of
  | .wikipedia_find_nearby _ _ _ _ _ _ _ _ of => of
  | .wikipedia_fulltext_search _ _ _ _ _ of => of
  | .wikipedia_bounding_box _ _ _ _ _ _ _ of => of
  | .earthquakes_bounding_box _ _ _ _ _ _ _ _ of => of
  | .weather_station_bounding_box _ _ _ _ _ _ of => of
  | .weather_station_icao _ _ of => of
  | .weather_station_find_nearby _ _ _ _ of => of
  | .country_info _ _ _ of => of
  | .ocean _ _ _ _ of => of
  | .timezone _ _ _ _ _ _ of => of

/-- Whether the endpoint method builds its URL through
`_create_bare_end_point` with `additional_output_formats` left `None`:
every method except `search` (which does not use it) and `country_info`
(which passes `"CSV"`). -/
def EndpointCall.bare_without_additional : EndpointCall → Bool
  | .search _ _ _ _ _ _ _ _ _ _ _ _ _ _ _ _ _ _ _ _ _ _ _ _ _ _ _ _ _ _ _ => false
  | .country_info _ _ _ _ => false
  | _ => true

theorem APIUrl.init_ok_elim (u : String) (s : Bool) (d : String) (c : APIUrl)
    (h : APIUrl.init u s d = .ok c) :
    c.username = u ∧ c.base_url = APIUrl.create_base_url s
      ∧ c.default_output_format = d := by
  unfold APIUrl.init at h
  split at h
  · injection h with h'
    subst h'
    exact ⟨rfl, rfl, rfl⟩
  · exact absurd h (by simp)

theorem mem_optPair_key (k : String) (v : Option String) (kv : String × String)
    (h : kv ∈ optPair k v) : kv.1 = k := by
  cases v with
  | none => simp [optPair] at h
  | some x =>
    simp only [optPair, List.mem_singleton] at h
    rw [h]

theorem mem_listPairs_key (k : String) (o : Option (List String)) (kv : String × String)
    (h : kv ∈ listPairs k o) : kv.1 = k := by
  cases o with
  | none => simp [listPairs] at h
  | some l =>
    simp only [listPairs, List.mem_map] at h
    obtain ⟨a, _, ha⟩ := h
    rw [← ha]

theorem APIUrl.bare_spec_ok (c : APIUrl) (sec : Option Bool) (ep : String)
    (of : Option String) (aof : Option (List String)) (check : Except PyError Unit)
    (pairs : List (String × String)) (url : String)
    (h : APIUrl.bare_spec c sec ep of aof check pairs = .ok url) :
    url = APIUrl.end_point_url c sec ep of aof
      ++ urlencode ([("username", c.username)] ++ pairs) := by
  unfold APIUrl.bare_spec at h
  split at h
  · exact absurd h (by simp)
  · cases check with
    | error e => exact absurd h (by simp)
    | ok u => injection h with h'; rw [← h']

/-- The output-format suffix that `_create_bare_end_point` appends to the
endpoint path. -/
def APIUrl.format_suffix (c : APIUrl) (output_format : Option String)
    (additional_output_formats : Option (List String)) : String :=
  if truthyStr output_format then
    let f := pyUpper (output_format.getD "")
    (if f = "JSON" then "JSON" else "")
    ++ (if f = "CSV" ∧ f ∈ (additional_output_formats.getD []).map pyUpper then
          "CSV"
        else "")
  else if c.default_output_format = "JSON" then "JSON" else ""

theorem APIUrl.end_point_core_split (c : APIUrl) (sec : Option Bool) (ep : String)
    (of : Option String) (aof : Option (List String)) :
    APIUrl.end_point_core c sec ep of aof
      = (if truthyBool sec = true then "https://secure.geonames.org/" else c.base_url)
        ++ (ep ++ APIUrl.format_suffix c of aof) := by
  unfold APIUrl.end_point_core APIUrl.format_suffix APIUrl.create_base_url
  by_cases h1 : truthyStr of = true
  · by_cases h2 : pyUpper (of.getD "") = "JSON"
    · simp [h1, h2, String.append_assoc]
    · simp [h1, h2]
      split <;> simp [String.append_assoc]
  · by_cases h4 : c.default_output_format = "JSON"
    · simp [h1, h4, String.append_assoc]
    · simp [h1, h4, String.append_assoc]

set_option maxHeartbeats 1000000 in
theorem APIUrl.search_eq (c : APIUrl) (q name ne nsw : Option String) (mr sr : Option Int)
    (co : Option (List String)) (cb cc a1 a2 a3 : Option String)
    (fcl fco : Option (List String)) (ci la st : Option String) ( inr : Option Bool)
    (tg op cs : Option String) (fz : Option Int) (n e s w : Option Int)
    (sl ob ib : Option String) (sec : Option Bool) (of : Option String) :
    APIUrl.search c q name ne nsw mr sr co cb cc a1 a2 a3 fcl fco ci la st inr tg op cs fz
        n e s w sl ob ib sec of
      = if !(truthyStr q || truthyStr name || truthyStr ne) then
          .error (.assertionError "q, name or name_equals required")
        else
          .ok (((if truthyBool sec then APIUrl.create_base_url true else c.base_url)
              ++ "search?")
            ++ urlencode ([("username", c.username)]
                ++ searchPairs c q name ne nsw mr sr co cb cc a1 a2 a3 fcl fco ci la st inr
                    tg op cs fz n e s w sl ob ib of)) := by
  have h := APIUrl.call_eq_call_spec c
    (.search q name ne nsw mr sr co cb cc a1 a2 a3 fcl fco ci la st inr tg op cs fz
      n e s w sl ob ib sec of)
  simp only [APIUrl.call, APIUrl.call_spec] at h
  exact h

theorem APIUrl.bare_spec_base (c : APIUrl) (sec : Option Bool) (ep : String)
    (of : Option String) (aof : Option (List String)) (check : Except PyError Unit)
    (pairs : List (String × String)) (url : String)
    (h : APIUrl.bare_spec c sec ep of aof check pairs = .ok url) :
    ∃ r, url = (if truthyBool sec = true then "https://secure.geonames.org/" else c.base_url)
      ++ r := by
  have h1 := APIUrl.bare_spec_ok c sec ep of aof check pairs url h
  refine ⟨ep ++ APIUrl.format_suffix c of aof
    ++ ("?" ++ urlencode ([("username", c.username)] ++ pairs)), ?_⟩
  rw [h1]
  unfold APIUrl.end_point_url
  rw [APIUrl.end_point_core_split]
  simp [String.append_assoc]

theorem APIUrl.bare_spec_username (c : APIUrl) (sec : Option Bool) (ep : String)
    (of : Option String) (aof : Option (List String)) (check : Except PyError Unit)
    (pairs : List (String × String)) (url : String)
    (h : APIUrl.bare_spec c sec ep of aof check pairs = .ok url) :
    ∃ p rest, url = p ++ "?" ++ urlencode (("username", c.username) :: rest) := by
  have h1 := APIUrl.bare_spec_ok c sec ep of aof check pairs url h
  exact ⟨APIUrl.end_point_core c sec ep of aof, pairs, by rw [h1]; rfl⟩

theorem keys_searchPairsA (q name ne nsw : Option String) (mr sr : Option Int)
    (co : Option (List String)) (cb cc a1 a2 a3 : Option String)
    (fcl fco : Option (List String)) (ci la st : Option String) ( inr : Option Bool)
    (tg op cs : Option String) (fz : Option Int) (kv : String × String)
    (h : kv ∈ searchPairsA q name ne nsw mr sr co cb cc a1 a2 a3 fcl fco ci la st inr tg op cs fz) :
    kv.1 ∈ (["q", "name", "name_equals", "name_startsWith", "maxRows", "startRow",
      "country", "countryBias", "continentCode", "adminCode1", "adminCode2", "adminCode3",
      "featureClass", "featureCode", "cities", "lang", "style", "isNameRequired",
      "tag", "operator", "charset", "fuzzy"] : List String) := by
  simp only [searchPairsA, List.append_assoc, List.mem_append] at h
  rcases h with h|h|h|h|h|h|h|h|h|h|h|h|h|h|h|h|h|h|h|h|h|h <;>
    first
      | (rw [mem_optPair_key _ _ _ h]; decide)
      | (rw [mem_listPairs_key _ _ _ h]; decide)

theorem keys_searchPairsB (c : APIUrl) (sl ob ib of : Option String) (kv : String × String)
    (h : kv ∈ searchPairsB c sl ob ib of) :
    kv.1 ∈ (["searchlang", "orderby", "inclBbox", "type"] : List String) := by
  simp only [searchPairsB, List.append_assoc, List.mem_append, List.mem_singleton] at h
  rcases h with h|h|h|h
  · rw [mem_optPair_key _ _ _ h]; decide
  · rw [mem_optPair_key _ _ _ h]; decide
  · rw [mem_optPair_key _ _ _ h]; decide
  · rw [h]; simp

/-! ## The claims -/

/-- C1, counterexample: in `search`, the non-`None` argument `north = 1`
(with `east`, `south`, `west` left `None`) contributes no key-value pair at
all: the returned URL does not contain the string `"north"`, refuting the
claim that every non-`None` parameter appears exactly once in the query
string. -/
theorem c1_counterexample :
    some (1 : Int) ≠ (none : Option Int) ∧
    APIUrl.search demoCfg none (some "a") none none none none none none none none none none none none none none none none none none none none (some 1) none none none none none none none none
      = .ok "https://secure.geonames.org/search?username=u&name=a&type=JSON" ∧
    strContains "https://secure.geonames.org/search?username=u&name=a&type=JSON" "north"
      = false :=
  ⟨by simp, by rfl, by decide⟩

/-- C1 (amended): every endpoint call equals its specification
`call_spec`: the query string is the percent-encoding of `username`
followed by the method's pairs in its fixed assembly order, where each
present scalar argument contributes exactly one pair, except that the
per-call `secure` and `output_format` control arguments are not query
pairs (`output_format` contributes the `type` pair only in `search`),
list-valued arguments contribute one pair per element, and the four
bounding-box edges of `search` contribute their pairs only when all four
are non-`None`. -/
theorem c1_pairs_assembly (c : APIUrl) (ec : EndpointCall) :
    APIUrl.call c ec = APIUrl.call_spec c ec :=
  APIUrl.call_eq_call_spec c ec

/-- C2, counterexample: `q = ""` is set (non-`None`), yet the call fails
the precondition check, refuting the claim that a call with at least one
of `q`, `name`, `name_equals` set returns a URL. -/
theorem c2_counterexample :
    some "" ≠ (none : Option String) ∧
    APIUrl.search demoCfg (some "") none none none none none none none none none none none none none none none none none none none none none none none none none none none none none none
      = .error (.assertionError "q, name or name_equals required") :=
  ⟨by simp, by rfl⟩

/-- C2 (amended): `search` fails its precondition exactly when none of
`q`, `name`, `name_equals` is truthy (non-`None` and non-empty); when at
least one is truthy, a URL string is returned. -/
theorem c2_search_precondition (c : APIUrl) (q name ne nsw : Option String)
    (mr sr : Option Int) (co : Option (List String)) (cb cc a1 a2 a3 : Option String)
    (fcl fco : Option (List String)) (ci la st : Option String) ( inr : Option Bool)
    (tg op cs : Option String) (fz : Option Int) (n e s w : Option Int)
    (sl ob ib : Option String) (sec : Option Bool) (of : Option String) :
    (truthyStr q = false ∧ truthyStr name = false ∧ truthyStr ne = false →
      APIUrl.search c q name ne nsw mr sr co cb cc a1 a2 a3 fcl fco ci la st inr tg op cs
          fz n e s w sl ob ib sec of
        = .error (.assertionError "q, name or name_equals required")) ∧
    (truthyStr q = true ∨ truthyStr name = true ∨ truthyStr ne = true →
      ∃ url, APIUrl.search c q name ne nsw mr sr co cb cc a1 a2 a3 fcl fco ci la st inr
          tg op cs fz n e s w sl ob ib sec of = .ok url) := by
  rw [APIUrl.search_eq]
  constructor
  · intro h
    have hb : (!(truthyStr q || truthyStr name || truthyStr ne)) = true := by
      simp [h.1, h.2.1, h.2.2]
    rw [if_pos hb]
  · intro h
    have hb : ¬((!(truthyStr q || truthyStr name || truthyStr ne)) = true) := by
      rcases h with h|h|h <;> simp [h]
    rw [if_neg hb]
    exact ⟨_, rfl⟩

/-- Witness for C2: with everything `None` the call fails; with a truthy
`q` it returns a URL. -/
theorem c2_witness :
    APIUrl.search demoCfg none none none none none none none none none none none none none none none none none none none none none none none none none none none none none none none
      = .error (.assertionError "q, name or name_equals required") ∧
    ∃ url, APIUrl.search demoCfg (some "a") none none none none none none none none none none none none none none none none none none none none none none none none none none none none none none = .ok url :=
  ⟨(c2_search_precondition demoCfg none none none none none none none none none none none none none none none none none none none none none none none none none none none none none none none).1 ⟨rfl, rfl, rfl⟩,
   (c2_search_precondition demoCfg (some "a") none none none none none none none none none none none none none none none none none none none none none none none none none none none none none none).2 (Or.inl rfl)⟩

/-- C3: the code is at odds with the claim (and with its own assertion
message) on the failing input `north=10, east=20, south=5, west=0`: all
four edges are set, yet `all((north, east, south, west))` is falsy because
`west == 0`, so the three methods raise an `AssertionError` that claims
the parameters are "required" even though they were provided.  The sibling
method `cities_and_place_names_bounding_box` checks
`None not in (north, east, south, west)` instead and accepts the same
input, showing the intended behaviour. -/
theorem c3_zero_edge_rejected :
    some (0 : Int) ≠ (none : Option Int) ∧
    APIUrl.wikipedia_bounding_box demoCfg (some 10) (some 20) (some 5) (some 0) none none
        none none
      = .error (.assertionError "north, east, south and west are required parameters.") ∧
    APIUrl.earthquakes_bounding_box demoCfg (some 10) (some 20) (some 5) (some 0) none
        none none none none
      = .error (.assertionError "north, east, south and west are required parameters.") ∧
    APIUrl.weather_station_bounding_box demoCfg (some 10) (some 20) (some 5) (some 0)
        none none none
      = .error (.assertionError "north, east, south and west are required parameters.") ∧
    APIUrl.cities_and_place_names_bounding_box demoCfg (some 10) (some 20) (some 5)
        (some 0) none none none none
      = .ok "https://secure.geonames.org/citiesJSON?username=u&north=10&east=20&south=5&west=0" :=
  ⟨by simp, by rfl, by rfl, by rfl, by rfl⟩

theorem keyA_not_bbox (x : String)
    (hx : x ∈ (["q", "name", "name_equals", "name_startsWith", "maxRows", "startRow",
      "country", "countryBias", "continentCode", "adminCode1", "adminCode2", "adminCode3",
      "featureClass", "featureCode", "cities", "lang", "style", "isNameRequired",
      "tag", "operator", "charset", "fuzzy"] : List String)) :
    x ∉ (["north", "east", "south", "west"] : List String) := by
  simp only [List.mem_cons, List.not_mem_nil, or_false] at hx
  rcases hx with h|h|h|h|h|h|h|h|h|h|h|h|h|h|h|h|h|h|h|h|h|h <;> (rw [h]; decide)

theorem keyB_not_bbox (x : String)
    (hx : x ∈ (["searchlang", "orderby", "inclBbox", "type"] : List String)) :
    x ∉ (["north", "east", "south", "west"] : List String) := by
  simp only [List.mem_cons, List.not_mem_nil, or_false] at hx
  rcases hx with h|h|h|h <;> (rw [h]; decide)

/-- C4: in `search`, given a passing precondition, the four bounding-box
keys appear (in order north, east, south, west, each exactly once) exactly
when all four edge arguments are non-`None`; when any edge is `None` the
call still succeeds and none of the four keys appears in the query
string. -/
theorem c4_search_bbox (c : APIUrl) (q name ne nsw : Option String) (mr sr : Option Int)
    (co : Option (List String)) (cb cc a1 a2 a3 : Option String)
    (fcl fco : Option (List String)) (ci la st : Option String) ( inr : Option Bool)
    (tg op cs : Option String) (fz : Option Int) (n e s w : Option Int)
    (sl ob ib : Option String) (sec : Option Bool) (of : Option String)
    (hpre : truthyStr q = true ∨ truthyStr name = true ∨ truthyStr ne = true) :
    (∀ nv ev sv wv : Int, n = some nv → e = some ev → s = some sv → w = some wv →
      ∃ l1 l2, APIUrl.search c q name ne nsw mr sr co cb cc a1 a2 a3 fcl fco ci la st inr
          tg op cs fz n e s w sl ob ib sec of
        = .ok (((if truthyBool sec then APIUrl.create_base_url true else c.base_url)
              ++ "search?")
            ++ urlencode (l1 ++ [("north", toString nv), ("east", toString ev),
                ("south", toString sv), ("west", toString wv)] ++ l2))
        ∧ (∀ kv ∈ l1, kv.1 ∉ (["north", "east", "south", "west"] : List String))
        ∧ (∀ kv ∈ l2, kv.1 ∉ (["north", "east", "south", "west"] : List String))) ∧
    ((n = none ∨ e = none ∨ s = none ∨ w = none) →
      ∃ ps, APIUrl.search c q name ne nsw mr sr co cb cc a1 a2 a3 fcl fco ci la st inr
          tg op cs fz n e s w sl ob ib sec of
        = .ok (((if truthyBool sec then APIUrl.create_base_url true else c.base_url)
              ++ "search?")
            ++ urlencode ps)
        ∧ ∀ kv ∈ ps, kv.1 ∉ (["north", "east", "south", "west"] : List String)) := by
  have hb : ¬((!(truthyStr q || truthyStr name || truthyStr ne)) = true) := by
    rcases hpre with h|h|h <;> simp [h]
  constructor
  · intro nv ev sv wv hn he hs hw
    subst hn; subst he; subst hs; subst hw
    refine ⟨("username", c.username)
        :: searchPairsA q name ne nsw mr sr co cb cc a1 a2 a3 fcl fco ci la st inr tg op cs fz,
      searchPairsB c sl ob ib of, ?_, ?_, ?_⟩
    · rw [APIUrl.search_eq, if_neg hb]
      simp [searchPairs, optPair, List.append_assoc]
    · intro kv hkv
      rcases List.mem_cons.mp hkv with h | h
      · rw [h]; simp
      · exact keyA_not_bbox kv.1
          (keys_searchPairsA q name ne nsw mr sr co cb cc a1 a2 a3 fcl fco ci la st inr
            tg op cs fz kv h)
    · intro kv hkv
      exact keyB_not_bbox kv.1 (keys_searchPairsB c sl ob ib of kv hkv)
  · intro hnone
    refine ⟨("username", c.username)
        :: (searchPairsA q name ne nsw mr sr co cb cc a1 a2 a3 fcl fco ci la st inr tg op cs fz
          ++ searchPairsB c sl ob ib of), ?_, ?_⟩
    · rw [APIUrl.search_eq, if_neg hb]
      have hcond : (n.isSome && e.isSome && s.isSome && w.isSome) = false := by
        rcases hnone with h|h|h|h <;> simp [h]
      simp [searchPairs, hcond, List.append_assoc]
    · intro kv hkv
      rcases List.mem_cons.mp hkv with h | h
      · rw [h]; simp
      · rcases List.mem_append.mp h with h | h
        · exact keyA_not_bbox kv.1
            (keys_searchPairsA q name ne nsw mr sr co cb cc a1 a2 a3 fcl fco ci la st inr
              tg op cs fz kv h)
        · exact keyB_not_bbox kv.1 (keys_searchPairsB c sl ob ib of kv h)

/-- Witness for C4: a concrete passing call with all four edges set shows
the four pairs; one with the edges absent shows none of the keys. -/
theorem c4_witness :
    (∃ l1 l2, APIUrl.search demoCfg (some "a") none none none none none none none none none none none none none none none none none none none none none (some 1) (some 2) (some 3) (some 4) none none none none none
        = .ok (((if truthyBool none then APIUrl.create_base_url true else demoCfg.base_url)
              ++ "search?")
            ++ urlencode (l1 ++ [("north", toString (1 : Int)), ("east", toString (2 : Int)),
                ("south", toString (3 : Int)), ("west", toString (4 : Int))] ++ l2))
        ∧ (∀ kv ∈ l1, kv.1 ∉ (["north", "east", "south", "west"] : List String))
        ∧ (∀ kv ∈ l2, kv.1 ∉ (["north", "east", "south", "west"] : List String))) ∧
    (∃ ps, APIUrl.search demoCfg (some "a") none none none none none none none none none none none none none none none none none none none none none none none none none none none none none none
        = .ok (((if truthyBool none then APIUrl.create_base_url true else demoCfg.base_url)
              ++ "search?")
            ++ urlencode ps)
        ∧ ∀ kv ∈ ps, kv.1 ∉ (["north", "east", "south", "west"] : List String)) :=
  ⟨(c4_search_bbox demoCfg (some "a") none none none none none none none none none none none none none none none none none none none none none (some 1) (some 2) (some 3) (some 4) none none none none none
      (Or.inl rfl)).1 1 2 3 4 rfl rfl rfl rfl,
   (c4_search_bbox demoCfg (some "a") none none none none none none none none none none none none none none none none none none none none none none none none none none none none none none
      (Or.inl rfl)).2 (Or.inl rfl)⟩

/-- C5, counterexample: a configuration constructed with `secure=False`
(base `http://api.geonames.org/`) returns a URL with the secure prefix
when the per-call `secure` argument is `True`, refuting the claim that
every URL of the configuration begins with the construction-time prefix. -/
theorem c5_counterexample :
    APIUrl.init "u" false "JSON" = .ok demoCfgInsecure ∧
    APIUrl.search demoCfgInsecure (some "a") none none none none none none none none none none none none none none none none none none none none none none none none none none none none (some true) none
      = .ok "https://secure.geonames.org/search?username=u&q=a&type=JSON" ∧
    strContains "https://secure.geonames.org/search?username=u&q=a&type=JSON"
      "http://api.geonames.org/" = false :=
  ⟨by rfl, by rfl, by decide⟩

/-- C5 (amended): every URL returned by an endpoint method of a
configuration constructed with secure flag `s` begins with the
construction-time prefix `create_base_url s` whenever the per-call
`secure` argument is falsy; a truthy per-call `secure` forces the
`https://secure.geonames.org/` prefix instead. -/
theorem c5_base_url (u : String) (s : Bool) (d : String) (c : APIUrl)
    (hc : APIUrl.init u s d = .ok c) (ec : EndpointCall) (url : String)
    (hok : APIUrl.call c ec = .ok url) :
    (truthyBool (EndpointCall.secure_arg ec) = true →
      ∃ r, url = "https://secure.geonames.org/" ++ r) ∧
    (truthyBool (EndpointCall.secure_arg ec) = false →
      ∃ r, url = APIUrl.create_base_url s ++ r) := by
  obtain ⟨-, hbase, -⟩ := APIUrl.init_ok_elim u s d c hc
  rw [APIUrl.call_eq_call_spec] at hok
  have hmain : ∃ r, url
      = (if truthyBool (EndpointCall.secure_arg ec) = true then "https://secure.geonames.org/"
         else c.base_url) ++ r := by
    cases ec
    case search q name ne nsw mr sr co cb cc a1 a2 a3 fcl fco ci la st inr tg op cs fz n e s' w sl ob ib sec of =>
      simp only [APIUrl.call_spec, EndpointCall.secure_arg] at hok ⊢
      split at hok
      · exact absurd hok (by simp)
      · injection hok with h'
        subst h'
        rw [show ((if truthyBool sec then APIUrl.create_base_url true else c.base_url))
            = (if truthyBool sec = true then "https://secure.geonames.org/" else c.base_url)
          from by simp [APIUrl.create_base_url]]
        exact ⟨_, String.append_assoc _ _ _⟩
    all_goals
      simp only [APIUrl.call_spec, EndpointCall.secure_arg] at hok ⊢
    all_goals
      exact APIUrl.bare_spec_base _ _ _ _ _ _ _ _ hok
  obtain ⟨r, hr⟩ := hmain
  constructor
  · intro hsec
    rw [if_pos hsec] at hr
    exact ⟨r, hr⟩
  · intro hsec
    rw [if_neg (by simp [hsec])] at hr
    rw [hbase] at hr
    exact ⟨r, hr⟩

/-- Witness for C5: a concrete insecure configuration and a call without
the `secure` override yields a URL starting with the insecure base. -/
theorem c5_witness :
    ∃ r, "http://api.geonames.org/hierarchyJSON?username=u&geonameId=1"
      = APIUrl.create_base_url false ++ r :=
  (c5_base_url "u" false "JSON" demoCfgInsecure rfl (.hierarchy (some 1) none none)
    "http://api.geonames.org/hierarchyJSON?username=u&geonameId=1" rfl).2 rfl

/-- C6: endpoint methods are deterministic: constructing two
configurations from equal arguments and calling the same endpoint method
with equal arguments yields identical results. -/
theorem c6_deterministic (u1 u2 : String) (s1 s2 : Bool) (d1 d2 : String)
    (ec1 ec2 : EndpointCall) (hu : u1 = u2) (hs : s1 = s2) (hd : d1 = d2)
    (he : ec1 = ec2) :
    (APIUrl.init u1 s1 d1).map (fun c => APIUrl.call c ec1)
      = (APIUrl.init u2 s2 d2).map (fun c => APIUrl.call c ec2) := by
  subst hu; subst hs; subst hd; subst he; rfl

/-- Witness for C6: two identically-constructed calls agree. -/
theorem c6_witness :
    (APIUrl.init "u" true "JSON").map
        (fun c => APIUrl.call c (.ocean (some 1) none none none none))
      = (APIUrl.init "u" true "JSON").map
        (fun c => APIUrl.call c (.ocean (some 1) none none none none)) :=
  c6_deterministic "u" "u" true true "JSON" "JSON"
    (.ocean (some 1) none none none none) (.ocean (some 1) none none none none)
    rfl rfl rfl rfl

/-- C7: endpoint methods are stateless: in the state-passing form of any
call (the source methods never assign to an attribute of `self`), the
fields `username`, `_base_url` and `default_output_format` after the call
equal their values before it, whether the call succeeds or fails. -/
theorem c7_stateless (c : APIUrl) (ec : EndpointCall) :
    (APIUrl.call_state c ec).2.username = c.username
      ∧ (APIUrl.call_state c ec).2.base_url = c.base_url
      ∧ (APIUrl.call_state c ec).2.default_output_format = c.default_output_format :=
  ⟨rfl, rfl, rfl⟩

theorem search_question_split (B enc : String) :
    (B ++ "search?") ++ enc = ((B ++ "search") ++ "?") ++ enc := by
  rw [String.append_assoc B "search" "?"]
  rfl

/-- C8: every URL returned by any endpoint method has a query string whose
first key-value pair is `username` with the construction-time username. -/
theorem c8_username_first (u : String) (s : Bool) (d : String) (c : APIUrl)
    (hc : APIUrl.init u s d = .ok c) (ec : EndpointCall) (url : String)
    (hok : APIUrl.call c ec = .ok url) :
    ∃ p rest, url = p ++ "?" ++ urlencode (("username", u) :: rest) := by
  obtain ⟨huser, -, -⟩ := APIUrl.init_ok_elim u s d c hc
  subst huser
  rw [APIUrl.call_eq_call_spec] at hok
  cases ec
  case search q name ne nsw mr sr co cb cc a1 a2 a3 fcl fco ci la st inr tg op cs fz n e s' w sl ob ib sec of =>
    simp only [APIUrl.call_spec] at hok
    split at hok
    · exact absurd hok (by simp)
    · injection hok with h'
      subst h'
      rw [List.singleton_append, search_question_split]
      exact ⟨_, _, rfl⟩
  all_goals
    simp only [APIUrl.call_spec] at hok
  all_goals
    exact APIUrl.bare_spec_username _ _ _ _ _ _ _ _ hok

/-- Witness for C8: a concrete call whose query begins with the username
pair. -/
theorem c8_witness :
    ∃ p rest, "http://api.geonames.org/oceanJSON?username=u&lat=2"
      = p ++ "?" ++ urlencode (("username", "u") :: rest) :=
  c8_username_first "u" false "JSON" demoCfgInsecure rfl
    (.ocean (some 2) none none none none)
    "http://api.geonames.org/oceanJSON?username=u&lat=2" rfl

theorem toUpper_csv_ne_empty (fs : String) (h : pyUpper fs = "CSV") : (fs == "") = false := by
  by_cases hfs : fs = ""
  · subst hfs
    exact absurd h (by decide)
  · simp [hfs]

/-- C9: for every endpoint method that goes through
`_create_bare_end_point` with no additional output formats, passing an
`output_format` that uppercases to `"CSV"` raises the `TypeError` of the
membership test on `None`, before any precondition assert; `country_info`
instead returns a URL whose endpoint path ends in `"CSV"`. -/
theorem c9_csv_output_format :
    (∀ (c : APIUrl) (ec : EndpointCall) (fs : String),
      EndpointCall.output_format_arg ec = some fs → pyUpper fs = "CSV" →
      EndpointCall.bare_without_additional ec = true →
      APIUrl.call c ec = .error (.typeError "argument of type NoneType is not iterable")) ∧
    (∀ (c : APIUrl) (co : Option (List String)) (lg : Option String) (sec : Option Bool)
        (fs : String), pyUpper fs = "CSV" →
      ∃ t, APIUrl.call c (.country_info co lg sec (some fs))
        = .ok (((if truthyBool sec = true then "https://secure.geonames.org/"
              else c.base_url) ++ "countryInfoCSV?") ++ t)) := by
  constructor
  · intro c ec fs hof hup hbare
    have hne : (fs == "") = false := toUpper_csv_ne_empty fs hup
    rw [APIUrl.call_eq_call_spec]
    cases ec
    case search =>
      exact absurd hbare (by simp [EndpointCall.bare_without_additional])
    case country_info =>
      exact absurd hbare (by simp [EndpointCall.bare_without_additional])
    all_goals
      simp only [EndpointCall.output_format_arg] at hof
    all_goals
      subst hof
    all_goals
      simp [APIUrl.call_spec, APIUrl.bare_spec, truthyStr, hne, hup]
  · intro c co lg sec fs hup
    have hne : (fs == "") = false := toUpper_csv_ne_empty fs hup
    rw [APIUrl.call_eq_call_spec]
    simp only [APIUrl.call_spec]
    unfold APIUrl.bare_spec
    rw [if_neg (by simp)]
    have hurl : APIUrl.end_point_url c sec "countryInfo" (some fs) (some ["CSV"])
        = ((if truthyBool sec = true then "https://secure.geonames.org/" else c.base_url)
            ++ "countryInfoCSV?") := by
      unfold APIUrl.end_point_url
      rw [APIUrl.end_point_core_split]
      have hcsv : pyUpper "CSV" = "CSV" := by decide
      have hsuf : APIUrl.format_suffix c (some fs) (some ["CSV"]) = "CSV" := by
        simp [APIUrl.format_suffix, truthyStr, hne, hup, hcsv]
      rw [hsuf, String.append_assoc]
      rfl
    refine ⟨urlencode ([("username", c.username)] ++ countryInfoPairs co lg), ?_⟩
    show Except.ok (APIUrl.end_point_url c sec "countryInfo" (some fs) (some ["CSV"])
        ++ urlencode ([("username", c.username)] ++ countryInfoPairs co lg)) = _
    rw [hurl]

/-- Witness for C9: `children` with `output_format="csv"` raises the
`TypeError`; `country_info` with `output_format="CSV"` returns a URL with
path `countryInfoCSV`. -/
theorem c9_witness :
    APIUrl.call demoCfg (.children (some 7) none none none (some "csv"))
      = .error (.typeError "argument of type NoneType is not iterable") ∧
    ∃ t, APIUrl.call demoCfg (.country_info none none none (some "CSV"))
      = .ok (((if truthyBool (none : Option Bool) = true then "https://secure.geonames.org/"
          else demoCfg.base_url) ++ "countryInfoCSV?") ++ t) :=
  ⟨c9_csv_output_format.1 demoCfg (.children (some 7) none none none (some "csv")) "csv"
      rfl (by decide) rfl,
   c9_csv_output_format.2 demoCfg none none none "CSV" (by decide)⟩

theorem optPair_none (k : String) : optPair k none = [] := rfl

theorem optPair_some (k v : String) : optPair k (some v) = [(k, v)] := rfl

theorem map_toString_some (x : Int) : Option.map toString (some x) = some (toString x) := rfl

theorem map_toString_none : Option.map toString (none : Option Int) = none := rfl

/-- C10: the coordinate precondition of `timezone`, `ocean` and
`weather_station_find_nearby` is `assert latitude or longitude`
(truthiness): a nonzero latitude with `longitude=None` passes and the
query contains a `lat` pair and no `lng` key, while `latitude=0,
longitude=0` (both provided) raises the assertion error. -/
theorem c10_coordinate_truthiness (c : APIUrl) (x : Int) (hx : x ≠ 0)
    (r : Option Int) (lg : Option String) (sd : Option String) (sec : Option Bool) :
    (∃ ps, APIUrl.timezone c (some x) none r lg sd sec none
        = .ok (APIUrl.end_point_url c sec "timezone" none none ++ urlencode ps)
      ∧ ("lat", toString x) ∈ ps ∧ ∀ kv ∈ ps, kv.1 ≠ "lng") ∧
    APIUrl.timezone c (some 0) (some 0) r lg sd sec none
      = .error (.assertionError "latitude and longitude are required parameters.") ∧
    (∃ ps, APIUrl.ocean c (some x) none r sec none
        = .ok (APIUrl.end_point_url c sec "ocean" none none ++ urlencode ps)
      ∧ ("lat", toString x) ∈ ps ∧ ∀ kv ∈ ps, kv.1 ≠ "lng") ∧
    APIUrl.ocean c (some 0) (some 0) r sec none
      = .error (.assertionError "latitude and longitude are required parameters.") ∧
    (∃ ps, APIUrl.weather_station_find_nearby c (some x) none r sec none
        = .ok (APIUrl.end_point_url c sec "findNearByWeather" none none ++ urlencode ps)
      ∧ ("lat", toString x) ∈ ps ∧ ∀ kv ∈ ps, kv.1 ≠ "lng") ∧
    APIUrl.weather_station_find_nearby c (some 0) (some 0) r sec none
      = .error (.assertionError "latitude and longitude are required parameters.") := by
  have hxne : ((x == 0) : Bool) = false := by simpa using hx
  refine ⟨?_, ?_, ?_, ?_, ?_, ?_⟩
  · have h := APIUrl.call_eq_call_spec c (.timezone (some x) none r lg sd sec none)
    simp only [APIUrl.call, APIUrl.call_spec] at h
    refine ⟨[("username", c.username)] ++ timezonePairs (some x) none r lg sd, ?_, ?_, ?_⟩
    · rw [h]
      unfold APIUrl.bare_spec
      rw [if_neg (by simp [truthyStr])]
      rw [if_pos (by simp [truthyInt, hxne])]
    · simp [timezonePairs, optPair]
    · intro kv hkv
      simp only [timezonePairs, map_toString_some, map_toString_none, optPair_some,
        optPair_none, List.append_assoc, List.mem_cons, List.mem_append,
        List.mem_singleton, List.not_mem_nil, or_false, List.nil_append,
        List.singleton_append] at hkv
      rcases hkv with h1|(h1|h1)|h1|h1
      · rw [h1]; simp
      · rw [h1]; simp
      · rw [mem_optPair_key _ _ _ h1]; decide
      · rw [mem_optPair_key _ _ _ h1]; decide
      · rw [mem_optPair_key _ _ _ h1]; decide
  · have h := APIUrl.call_eq_call_spec c (.timezone (some 0) (some 0) r lg sd sec none)
    simp only [APIUrl.call, APIUrl.call_spec] at h
    rw [h]
    unfold APIUrl.bare_spec
    rw [if_neg (by simp [truthyStr])]
    rw [if_neg (by simp [truthyInt])]
  · have h := APIUrl.call_eq_call_spec c (.ocean (some x) none r sec none)
    simp only [APIUrl.call, APIUrl.call_spec] at h
    refine ⟨[("username", c.username)] ++ latLngRadiusPairs (some x) none r, ?_, ?_, ?_⟩
    · rw [h]
      unfold APIUrl.bare_spec
      rw [if_neg (by simp [truthyStr])]
      rw [if_pos (by simp [truthyInt, hxne])]
    · simp [latLngRadiusPairs, optPair]
    · intro kv hkv
      simp only [latLngRadiusPairs, map_toString_some, map_toString_none, optPair_some,
        optPair_none, List.append_assoc, List.mem_cons, List.mem_append,
        List.mem_singleton, List.not_mem_nil, or_false, List.nil_append,
        List.singleton_append] at hkv
      rcases hkv with h1|h1|h1
      · rw [h1]; simp
      · rw [h1]; simp
      · rw [mem_optPair_key _ _ _ h1]; decide
  · have h := APIUrl.call_eq_call_spec c (.ocean (some 0) (some 0) r sec none)
    simp only [APIUrl.call, APIUrl.call_spec] at h
    rw [h]
    unfold APIUrl.bare_spec
    rw [if_neg (by simp [truthyStr])]
    rw [if_neg (by simp [truthyInt])]
  · have h := APIUrl.call_eq_call_spec c (.weather_station_find_nearby (some x) none r sec none)
    simp only [APIUrl.call, APIUrl.call_spec] at h
    refine ⟨[("username", c.username)] ++ latLngRadiusPairs (some x) none r, ?_, ?_, ?_⟩
    · rw [h]
      unfold APIUrl.bare_spec
      rw [if_neg (by simp [truthyStr])]
      rw [if_pos (by simp [truthyInt, hxne])]
    · simp [latLngRadiusPairs, optPair]
    · intro kv hkv
      simp only [latLngRadiusPairs, map_toString_some, map_toString_none, optPair_some,
        optPair_none, List.append_assoc, List.mem_cons, List.mem_append,
        List.mem_singleton, List.not_mem_nil, or_false, List.nil_append,
        List.singleton_append] at hkv
      rcases hkv with h1|h1|h1
      · rw [h1]; simp
      · rw [h1]; simp
      · rw [mem_optPair_key _ _ _ h1]; decide
  · have h := APIUrl.call_eq_call_spec c (.weather_station_find_nearby (some 0) (some 0) r sec none)
    simp only [APIUrl.call, APIUrl.call_spec] at h
    rw [h]
    unfold APIUrl.bare_spec
    rw [if_neg (by simp [truthyStr])]
    rw [if_neg (by simp [truthyInt])]

/-- Witness for C10 at latitude 5. -/
theorem c10_witness :
    (∃ ps, APIUrl.timezone demoCfg (some 5) none none none none none none
        = .ok (APIUrl.end_point_url demoCfg none "timezone" none none ++ urlencode ps)
      ∧ ("lat", toString (5 : Int)) ∈ ps ∧ ∀ kv ∈ ps, kv.1 ≠ "lng") ∧
    APIUrl.timezone demoCfg (some 0) (some 0) none none none none none
      = .error (.assertionError "latitude and longitude are required parameters.") ∧
    (∃ ps, APIUrl.ocean demoCfg (some 5) none none none none
        = .ok (APIUrl.end_point_url demoCfg none "ocean" none none ++ urlencode ps)
      ∧ ("lat", toString (5 : Int)) ∈ ps ∧ ∀ kv ∈ ps, kv.1 ≠ "lng") ∧
    APIUrl.ocean demoCfg (some 0) (some 0) none none none
      = .error (.assertionError "latitude and longitude are required parameters.") ∧
    (∃ ps, APIUrl.weather_station_find_nearby demoCfg (some 5) none none none none
        = .ok (APIUrl.end_point_url demoCfg none "findNearByWeather" none none ++ urlencode ps)
      ∧ ("lat", toString (5 : Int)) ∈ ps ∧ ∀ kv ∈ ps, kv.1 ≠ "lng") ∧
    APIUrl.weather_station_find_nearby demoCfg (some 0) (some 0) none none none
      = .error (.assertionError "latitude and longitude are required parameters.") :=
  c10_coordinate_truthiness demoCfg 5 (by decide) none none none none
